import Mathlib

/-!
Verification development for the Google Meet recording orchestrator
(`app.py`).  The Python source is shallowly embedded: pure helpers become
Lean functions, the session registry becomes an association list, the
background executor `record_meeting_session` becomes a function from
collaborator outcomes to the list of registry updates and side effects it
issues, and the filesystem is a list of existing file names.
-/

namespace MeetRec

/-! ## The URL validator extract_meeting_id (app.py lines 77-90)

Python uses `re.search` with three patterns, tried in order:
1. `meet\.google\.com/([a-z]{3}-[a-z]{4}-[a-z]{3})`
2. `meetingCode=([a-z]{3}-[a-z]{4}-[a-z]{3})`
3. `meet\.google\.com/([a-zA-Z0-9-_]+)`
`re.search` finds the leftmost position where the whole pattern (a literal
followed by a capture group) matches; for the `+`-group the match is the
maximal run of class characters (nothing follows it in the pattern). -/

/-- Character class `[a-z]`. -/
def isLowerAZ (c : Char) : Bool := 'a' ≤ c && c ≤ 'z'

/-- Character class `[a-zA-Z0-9-_]` of the third pattern. -/
def isMeetIdChar (c : Char) : Bool :=
  ('a' ≤ c && c ≤ 'z') || ('A' ≤ c && c ≤ 'Z') || ('0' ≤ c && c ≤ '9') ||
  c = '-' || c = '_'

/-- Group matcher for `([a-z]{3}-[a-z]{4}-[a-z]{3})`: succeeds exactly when
the next 12 characters have the strict meeting-code shape, capturing them. -/
def matchStrictCode : List Char → Option (List Char)
  | a :: b :: c :: '-' :: d :: e :: f :: g :: '-' :: h :: i :: j :: _ =>
    if isLowerAZ a && isLowerAZ b && isLowerAZ c && isLowerAZ d &&
       isLowerAZ e && isLowerAZ f && isLowerAZ g && isLowerAZ h &&
       isLowerAZ i && isLowerAZ j then
      some [a, b, c, '-', d, e, f, g, '-', h, i, j]
    else none
  | _ => none

/-- Group matcher for `([a-zA-Z0-9-_]+)`: the maximal nonempty run of class
characters. -/
def matchIdRun (l : List Char) : Option (List Char) :=
  let r := l.takeWhile isMeetIdChar
  if r.isEmpty then none else some r

/-- Embedding of `re.search` for a pattern of the form `literal(group)`: try every
position left to right; at each position the literal must be a prefix and
the group matcher must succeed on what follows. -/
def reSearch (lit : List Char) (grp : List Char → Option (List Char)) :
    List Char → Option (List Char)
  | [] => none
  | c :: t =>
    match (if lit.isPrefixOf (c :: t) then grp ((c :: t).drop lit.length) else none) with
    | some g => some g
    | none => reSearch lit grp t

def meetLit : List Char := "meet.google.com/".data

def codeLit : List Char := "meetingCode=".data

/-- Embedding of `extract_meeting_id`.  `none` stands for the
`ValueError("Invalid Google Meet URL format")` raise. -/
def extract_meeting_id (meeting_url : String) : Option String :=
  match reSearch meetLit matchStrictCode meeting_url.data with
  | some g => some (String.mk g)
  | none =>
    match reSearch codeLit matchStrictCode meeting_url.data with
    | some g => some (String.mk g)
    | none =>
      match reSearch meetLit matchIdRun meeting_url.data with
      | some g => some (String.mk g)
      | none => none

/-! ## Data model: the session record (app.py lines 288-301)

All values stored in a session dict are scalars (strings, ints, bools,
`None`), so a Lean structure with `Option` fields is an exact value-level
model of the Python dict. -/

structure SessionRec where
  session_id : String
  meeting_url : String
  meeting_id : String
  duration_minutes : Int
  upload_to_drive : Bool
  folder_name : String
  status : String
  created_at : String
  recording_file : Option String
  drive_link : Option String
  error_message : Option String
deriving Repr, DecidableEq

/-- One keyword argument passed to `update_session_status` (the only keys
ever passed in app.py are `recording_file`, `drive_link`, `error_message`). -/
inductive FieldSet where
  | recordingFile (v : String)
  | driveLink (v : Option String)
  | errorMessage (v : String)
deriving Repr, DecidableEq

/-- One `update_session_status(session_id, status, **kwargs)` call: the new
status plus the keyword field assignments. -/
structure StatusUpdate where
  status : String
  fields : List FieldSet
deriving Repr, DecidableEq

/-- Apply one keyword assignment to a record
(`active_sessions[session_id][key] = value`). -/
def applyFieldSet (r : SessionRec) : FieldSet → SessionRec
  | .recordingFile v => { r with recording_file := some v }
  | .driveLink v => { r with drive_link := v }
  | .errorMessage v => { r with error_message := some v }

/-- Apply one `update_session_status` call to a record: set `status`, then
apply each keyword assignment. -/
def applyUpdate (r : SessionRec) (u : StatusUpdate) : SessionRec :=
  u.fields.foldl applyFieldSet { r with status := u.status }

/-! ## The pipeline executor (app.py lines 190-261)

`record_meeting_session` is embedded as a function from the outcomes of its
external collaborators (environment credentials, Google login, the meeting
join wait, the ffmpeg capture, the Drive upload) to the sequence of events
it performs: registry status updates, the capture invocation, the upload
invocation, file removals (it performs none) and the `driver.quit()` in the
`finally` block.  Exceptions raised inside the inner `try` trigger
`driver.quit()` first (the `finally`) and then the catch-all
`update_session_status(session_id, "error", error_message=str(e))`. -/

inductive Event where
  | update (u : StatusUpdate)
  | startCapture (outputFile : String) (durationSeconds : Int)
  | callUpload (file : String) (folder : String)
  | removeFile (f : String)
  | quitDriver
deriving Repr, DecidableEq

/-- Collaborator outcomes for one run of the executor. -/
structure Collab where
  /-- Value of `os.getenv('GMAIL_ADDRESS')` (`none` = unset). -/
  gmailAddress : Option String
  /-- Value of `os.getenv('GMAIL_PASSWORD')`. -/
  gmailPassword : Option String
  /-- Whether `google_login` returns `True`. -/
  loginOk : Bool
  /-- Whether the join-button wait and click succeed. -/
  joinOk : Bool
  /-- Text `str(e)` of the exception when the join wait fails (a Selenium
  `TimeoutException` or similar). -/
  joinErr : String
  /-- State of the output file left on disk by the ffmpeg capture:
  `none` = no file, `some n` = a file of `n` bytes exists. -/
  captureFileSize : Option Nat
  /-- Result of `upload_to_drive`: `none` = it returned `None` (failure);
  `some link` = a result dict whose `.get('webViewLink')` is `link`. -/
  uploadResult : Option (Option String)

/-- Python truthiness of an optional string (`None` and `""` are falsy):
used by `if not mail_address or not password`. -/
def truthyStr : Option String → Bool
  | none => false
  | some s => !(s == "")

def credsOk (c : Collab) : Bool :=
  truthyStr c.gmailAddress && truthyStr c.gmailPassword

/-- Embedding of `start_recording`'s return value, `os.path.exists(output_file)`:
the file's existence, its size ignored. -/
def start_recording_result (captureFileSize : Option Nat) : Bool :=
  captureFileSize.isSome

/-- Message of the `ValueError` CPython's `time.sleep` raises on a negative
argument.  `start_recording` calls `time.sleep(duration_seconds)` after
launching ffmpeg, so a negative requested duration — which submission does
not reject — makes `start_recording` raise after the `finally` block has
terminated the capture process, and the executor's catch-all turns it into
an "error" update. -/
def sleepNegativeMsg : String := "sleep length must be non-negative"

/-- The output file name `f"recording_{session_id}.mp3"`. -/
def outputFileName (session_id : String) : String :=
  "recording_" ++ session_id ++ ".mp3"

/-- Embedding of `record_meeting_session`: the sequence of events the
background task performs, given the collaborator outcomes.  The capture
stage first launches ffmpeg (the `startCapture` event, from
`subprocess.Popen`), then sleeps for `duration_minutes * 60` seconds: a
negative value makes `time.sleep` raise `ValueError`, which the catch-all
turns into an "error" update after the `finally` ran `driver.quit()`. -/
def record_meeting_session (c : Collab) (session_id : String)
    (duration_minutes : Int) (upload_to_drive_flag : Bool)
    (folder_name : String) : List Event :=
  .update ⟨"starting", []⟩ ::
  if !credsOk c then
    [.update ⟨"error", [.errorMessage "Gmail credentials not found in environment variables"]⟩]
  else
    .update ⟨"logging_in", []⟩ ::
    if !c.loginOk then
      [.quitDriver, .update ⟨"error", [.errorMessage "Failed to login to Google account"]⟩]
    else
      .update ⟨"joining_meeting", []⟩ ::
      if !c.joinOk then
        [.quitDriver, .update ⟨"error", [.errorMessage c.joinErr]⟩]
      else
        .update ⟨"recording", []⟩ ::
        .startCapture (outputFileName session_id) (duration_minutes * 60) ::
        if duration_minutes * 60 < 0 then
          [.quitDriver, .update ⟨"error", [.errorMessage sleepNegativeMsg]⟩]
        else if start_recording_result c.captureFileSize then
          .update ⟨"recording_complete", [.recordingFile (outputFileName session_id)]⟩ ::
          if upload_to_drive_flag then
            .update ⟨"uploading", []⟩ ::
            .callUpload (outputFileName session_id) folder_name ::
            match c.uploadResult with
            | some link => [.update ⟨"completed", [.driveLink link]⟩, .quitDriver]
            | none =>
              [.update ⟨"upload_failed", [.errorMessage "Failed to upload to Google Drive"]⟩,
               .quitDriver]
          else [.update ⟨"completed", []⟩, .quitDriver]
        else
          [.update ⟨"recording_failed", [.errorMessage "Recording failed"]⟩, .quitDriver]

/-- The statuses written by a run, in order. -/
def statusTrace (evs : List Event) : List String :=
  evs.filterMap fun e => match e with | .update u => some u.status | _ => none

/-- Fold a run's registry updates into a record (the job's owning executor
is the record's only writer, so this is the record's evolution). -/
def runUpdates (r : SessionRec) (evs : List Event) : SessionRec :=
  evs.foldl (fun acc e => match e with | .update u => applyUpdate acc u | _ => acc) r

/-- Whether an event invokes the capture collaborator. -/
def isCaptureCall : Event → Bool
  | .startCapture _ _ => true
  | _ => false

/-- Whether an event deletes a file. -/
def isRemoveFile : Event → Bool
  | .removeFile _ => true
  | _ => false

/-- Filesystem semantics of a run's events: a capture invocation creates the
output file exactly when the collaborator leaves one on disk
(`captureFileSize.isSome`); a `removeFile` deletes. -/
def runFs (c : Collab) (fs : List String) (evs : List Event) : List String :=
  evs.foldl
    (fun acc e =>
      match e with
      | .startCapture f _ => if c.captureFileSize.isSome then f :: acc else acc
      | .removeFile f => acc.erase f
      | _ => acc) fs

/-! ## The session registry (app.py lines 36-75, 286-301, 350-372)

`active_sessions` is a dict from session id to session dict; at the value
level it is an association list (all stored values are scalars).  The lock
serializes access, so the sequential functions below are the observable
semantics of each critical section. -/

/-- Dict lookup in an association list (first binding wins; session ids are
fresh UUIDs so keys are unique in practice). -/
def keyLookup {α : Type} : List (String × α) → String → Option α
  | [], _ => none
  | (k, v) :: t, sid => if k = sid then some v else keyLookup t sid

/-- Dict assignment at an existing key. -/
def keySet {α : Type} : List (String × α) → String → α → List (String × α)
  | [], _, _ => []
  | (k, v) :: t, sid, x => if k = sid then (k, x) :: t else (k, v) :: keySet t sid x

/-- Dict deletion `del active_sessions[session_id]`. -/
def keyErase {α : Type} : List (String × α) → String → List (String × α)
  | [], _ => []
  | (k, v) :: t, sid => if k = sid then t else (k, v) :: keyErase t sid

abbrev Registry := List (String × SessionRec)

/-- Embedding of `update_session_status` (lines 63-70): update the record if
the id is present, otherwise do nothing (the absence branch only logs). -/
def update_session_status (reg : Registry) (session_id status : String)
    (kwargs : List FieldSet) : Registry :=
  match keyLookup reg session_id with
  | none => reg
  | some s => keySet reg session_id (applyUpdate s ⟨status, kwargs⟩)

/-- Embedding of `get_session_data` (lines 72-75) at the value level:
`active_sessions.get(session_id, {}).copy() if session_id in active_sessions
else None`. -/
def get_session_data (reg : Registry) (session_id : String) : Option SessionRec :=
  keyLookup reg session_id

/-! ## The orchestrator facade: `start_meeting_recording` (lines 272-325) -/

structure MeetingRequest where
  meeting_url : String
  duration_minutes : Option Int
  upload_to_drive : Option Bool
  folder_name : Option String
deriving Repr, DecidableEq

structure MeetingResponse where
  session_id : String
  status : String
  message : String
  meeting_url : String
  duration_minutes : Int
deriving Repr, DecidableEq

/-- Evaluation of `request.duration_minutes or 30`: Python `or` falls through on falsy
values, so both `None` and `0` become 30; every other value (negative
included) is kept. -/
def defaultedDuration : Option Int → Int
  | none => 30
  | some v => if v = 0 then 30 else v

/-- Evaluation of `request.upload_to_drive if request.upload_to_drive is not None else True`. -/
def defaultedUpload : Option Bool → Bool
  | none => true
  | some b => b

/-- Evaluation of `request.folder_name or "Meeting Recordings"` (`None` and `""` are falsy). -/
def defaultedFolder : Option String → String
  | none => "Meeting Recordings"
  | some s => if s = "" then "Meeting Recordings" else s

/-- The session dict created on submission (lines 288-301). -/
def initialSession (req : MeetingRequest) (meeting_id session_id created_at : String) :
    SessionRec :=
  { session_id := session_id
    meeting_url := req.meeting_url
    meeting_id := meeting_id
    duration_minutes := defaultedDuration req.duration_minutes
    upload_to_drive := defaultedUpload req.upload_to_drive
    folder_name := defaultedFolder req.folder_name
    status := "queued"
    created_at := created_at
    recording_file := none
    drive_link := none
    error_message := none }

/-- Embedding of the `/start-recording` handler `start_meeting_recording`:
validates the URL via `extract_meeting_id` (a `ValueError` becomes an HTTP
400 whose detail embeds the error text) and on success inserts the new
session, dispatches the background task, and returns the response.  The
randomly generated `session_id` and the `created_at` timestamp are
parameters. -/
def start_meeting_recording (reg : Registry) (req : MeetingRequest)
    (session_id created_at : String) :
    Except String MeetingResponse × Registry :=
  match extract_meeting_id req.meeting_url with
  | none => (.error "Invalid meeting URL: Invalid Google Meet URL format", reg)
  | some mid =>
    (.ok
      { session_id := session_id
        status := "queued"
        message := "Recording session started successfully"
        meeting_url := req.meeting_url
        duration_minutes := defaultedDuration req.duration_minutes },
     (session_id, initialSession req mid session_id created_at) :: reg)

/-! ## The handler delete_session (lines 350-372)

The filesystem is a list of existing file names; `os.remove` removes the
name (modeled as `filter`, removing every occurrence).  `removeFails` says
whether `os.remove` raises; the handler catches and logs that exception. -/

def delete_session (reg : Registry) (fs : List String) (removeFails : Bool)
    (session_id : String) :
    Except String String × Registry × List String :=
  match get_session_data reg session_id with
  | none => (.error "Session not found", reg, fs)
  | some s =>
    let fs' :=
      match s.recording_file with
      | some f =>
        if f ≠ "" ∧ f ∈ fs then (if removeFails then fs else fs.filter (fun g => ¬ g = f))
        else fs
      | none => fs
    (.ok "Session deleted successfully", keyErase reg session_id, fs')

/-! ## Reference-level model of `get_session_data`'s `.copy()` (lines 72-75)

Python dicts are heap references: `active_sessions` maps a session id to a
reference, and `update_session_status` mutates the referenced dict in
place.  `get_session_data` returns `.copy()` — a fresh dict.  To state that
this copy shields readers from later updates, the heap is made explicit:
addresses are `Nat`, the registry maps ids to addresses, and `.copy()`
allocates a fresh address holding the same record value. -/

abbrev Heap := List (Nat × SessionRec)

def heapLookup : Heap → Nat → Option SessionRec
  | [], _ => none
  | (k, v) :: t, a => if k = a then some v else heapLookup t a

def heapSet : Heap → Nat → SessionRec → Heap
  | [], _, _ => []
  | (k, v) :: t, a, x => if k = a then (k, x) :: t else (k, v) :: heapSet t a x

/-- Largest allocated address. -/
def heapMax : Heap → Nat
  | [] => 0
  | (k, _) :: t => max k (heapMax t)

/-- A fresh, unallocated address. -/
def freshAddr (h : Heap) : Nat := heapMax h + 1

/-- Embedding of `get_session_data` with the heap explicit: on a present id, allocate a
fresh cell holding a copy of the record and return its address. -/
def get_session_data_heap (h : Heap) (reg : List (String × Nat)) (sid : String) :
    Option Nat × Heap :=
  match keyLookup reg sid with
  | none => (none, h)
  | some a =>
    match heapLookup h a with
    | none => (none, h)
    | some r => (some (freshAddr h), (freshAddr h, r) :: h)

/-- Embedding of `update_session_status` with the heap explicit: mutate, in place, the
dict the registry references. -/
def update_session_status_heap (h : Heap) (reg : List (String × Nat))
    (sid status : String) (kwargs : List FieldSet) : Heap :=
  match keyLookup reg sid with
  | none => h
  | some a =>
    match heapLookup h a with
    | none => h
    | some r => heapSet h a (applyUpdate r ⟨status, kwargs⟩)

/-! ## Stage vocabulary and sample values -/

/-- The success path of stage values as the code writes them. -/
def codePath : List String :=
  ["queued", "starting", "logging_in", "joining_meeting", "recording",
   "recording_complete", "uploading", "completed"]

/-- The terminal stage values the code can leave a job in. -/
def codeTerminals : List String :=
  ["completed", "upload_failed", "recording_failed", "error"]

/-- The terminal stage set named by the specification. -/
def specTerminals : List String :=
  ["completed", "auth_failed", "join_failed", "capture_failed", "upload_failed"]

/-- Collaborators all succeeding (a 1024-byte artifact, a Drive link). -/
def okCollab : Collab :=
  ⟨some "user@gmail.com", some "secret", true, true, "",
   some 1024, some (some "https://drive.example/view")⟩

/-- Authentication collaborator failing (`google_login` returns `False`). -/
def authFailCollab : Collab :=
  ⟨some "user@gmail.com", some "secret", false, true, "", none, none⟩

/-- Capture leaving a zero-byte file on disk, no upload attempted after. -/
def zeroSizeCollab : Collab :=
  ⟨some "user@gmail.com", some "secret", true, true, "", some 0, none⟩

/-- Capture succeeding (2048-byte artifact) but `upload_to_drive` returning
`None`. -/
def uploadFailCollab : Collab :=
  ⟨some "user@gmail.com", some "secret", true, true, "", some 2048, none⟩

def sampleReq : MeetingRequest :=
  ⟨"https://meet.google.com/abc-defg-hij", none, none, none⟩

def sampleRec : SessionRec := initialSession sampleReq "abc-defg-hij" "sid0" "t0"

/-- A completed-capture record used to exercise `delete_session`. -/
def rec7 : SessionRec :=
  { sampleRec with session_id := "s7", recording_file := some "recording_s7.mp3" }

/-! ## Helper lemmas -/

theorem statusTrace_cases (c : Collab) (sid : String) (dm : Int) (uf : Bool) (fn : String) :
    statusTrace (record_meeting_session c sid dm uf fn) ∈
      [["starting", "error"],
       ["starting", "logging_in", "error"],
       ["starting", "logging_in", "joining_meeting", "error"],
       ["starting", "logging_in", "joining_meeting", "recording", "error"],
       ["starting", "logging_in", "joining_meeting", "recording", "recording_failed"],
       ["starting", "logging_in", "joining_meeting", "recording", "recording_complete",
        "completed"],
       ["starting", "logging_in", "joining_meeting", "recording", "recording_complete",
        "uploading", "completed"],
       ["starting", "logging_in", "joining_meeting", "recording", "recording_complete",
        "uploading", "upload_failed"]] := by
  unfold record_meeting_session statusTrace
  repeat' split
  all_goals simp [List.filterMap]

theorem reSearch_meet_isSome :
    ∀ l : List Char, (∃ pre c suf, l = pre ++ meetLit ++ c :: suf ∧ isMeetIdChar c = true) →
      (reSearch meetLit matchIdRun l).isSome = true := by
  intro l
  induction l with
  | nil =>
    rintro ⟨pre, c, suf, h, hc⟩
    have := congrArg List.length h
    simp [List.length_append] at this
    omega
  | cons a t ih =>
    rintro ⟨pre, c, suf, h, hc⟩
    cases pre with
    | nil =>
      simp only [List.nil_append] at h
      have hpre : meetLit.isPrefixOf (a :: t) = true := by
        rw [h]; exact List.isPrefixOf_iff_prefix.mpr (List.prefix_append _ _)
      have hdrop : (a :: t).drop meetLit.length = c :: suf := by
        rw [h]; exact List.drop_left _ _
      rw [reSearch, hpre]
      simp only [if_true, hdrop, matchIdRun, List.takeWhile_cons, hc]
      simp
    | cons p pre' =>
      have ht : t = pre' ++ meetLit ++ c :: suf := by
        simpa using congrArg List.tail h
      rw [reSearch]
      cases hm : (if meetLit.isPrefixOf (a :: t) then matchIdRun ((a :: t).drop meetLit.length)
          else none) with
      | some g => simp
      | none => exact ih ⟨pre', c, suf, ht, hc⟩

theorem keyLookup_eq_none_of_not_mem {α : Type} (reg : List (String × α)) (sid : String)
    (h : sid ∉ reg.map Prod.fst) : keyLookup reg sid = none := by
  induction reg with
  | nil => rfl
  | cons p t ih =>
    simp only [List.map_cons, List.mem_cons] at h
    push_neg at h
    simp only [keyLookup]
    rw [if_neg (by exact fun hk => h.1 hk.symm)]
    exact ih h.2

theorem keyLookup_keyErase_self {α : Type} (reg : List (String × α)) (sid : String)
    (hnd : (reg.map Prod.fst).Nodup) : keyLookup (keyErase reg sid) sid = none := by
  induction reg with
  | nil => rfl
  | cons p t ih =>
    simp only [List.map_cons, List.nodup_cons] at hnd
    simp only [keyErase]
    by_cases hk : p.1 = sid
    · rw [if_pos hk]
      exact keyLookup_eq_none_of_not_mem t sid (hk ▸ hnd.1)
    · rw [if_neg hk]
      simp only [keyLookup]
      rw [if_neg hk]
      exact ih hnd.2

theorem keyLookup_mem {α : Type} (reg : List (String × α)) (sid : String) (a : α)
    (h : keyLookup reg sid = some a) : (sid, a) ∈ reg := by
  induction reg with
  | nil => simp [keyLookup] at h
  | cons p t ih =>
    obtain ⟨k, v⟩ := p
    simp only [keyLookup] at h
    split at h
    · rename_i hk
      cases h
      subst hk
      exact List.mem_cons_self _ _
    · exact List.mem_cons_of_mem _ (ih h)

theorem heapLookup_heapSet_ne (h : Heap) (a b : Nat) (x : SessionRec) (hne : b ≠ a) :
    heapLookup (heapSet h a x) b = heapLookup h b := by
  induction h with
  | nil => rfl
  | cons p t ih =>
    simp only [heapSet]
    by_cases hk : p.1 = a
    · rw [if_pos hk]
      simp only [heapLookup]
      rw [if_neg (by rw [hk]; exact fun hba => hne hba.symm),
        if_neg (by rw [hk]; exact fun hba => hne hba.symm)]
    · rw [if_neg hk]
      simp only [heapLookup]
      by_cases hb : p.1 = b
      · rw [if_pos hb, if_pos hb]
      · rw [if_neg hb, if_neg hb]
        exact ih

/-! ## Claim C1: submission-time duration validation -/

/-- C1 counterexample: the claim says a submission with `duration = 0`
fails synchronously and never creates a registry entry.  In the code,
`request.duration_minutes or 30` treats `0` as falsy: the submission with
duration 0 succeeds and a registry entry is created (with duration 30). -/
theorem C1_counterexample :
    (start_meeting_recording []
        ⟨"https://meet.google.com/abc-defg-hij", some 0, none, none⟩ "sid1" "t0").1 =
      .ok ⟨"sid1", "queued", "Recording session started successfully",
        "https://meet.google.com/abc-defg-hij", 30⟩ ∧
    get_session_data
        (start_meeting_recording []
          ⟨"https://meet.google.com/abc-defg-hij", some 0, none, none⟩ "sid1" "t0").2 "sid1" =
      some ⟨"sid1", "https://meet.google.com/abc-defg-hij", "abc-defg-hij", 30, true,
        "Meeting Recordings", "queued", "t0", none, none, none⟩ := by
  constructor <;> rfl

/-- C1 (amended): `start_meeting_recording` performs no duration
validation.  Whenever the URL validates, it succeeds and creates a
registry entry whose duration is `request.duration_minutes or 30`: unset
and `0` become 30, every other value — negative included — is stored
unchanged; `folder_name` unset defaults to "Meeting Recordings".  When the
URL does not validate it fails synchronously and leaves the registry
unchanged. -/
theorem C1_submit_duration_defaulting (reg : Registry) (req : MeetingRequest)
    (sid ts : String) :
    (∀ mid, extract_meeting_id req.meeting_url = some mid →
      (start_meeting_recording reg req sid ts).1 =
        .ok ⟨sid, "queued", "Recording session started successfully", req.meeting_url,
          defaultedDuration req.duration_minutes⟩ ∧
      (start_meeting_recording reg req sid ts).2 =
        (sid, initialSession req mid sid ts) :: reg ∧
      (initialSession req mid sid ts).status = "queued" ∧
      (initialSession req mid sid ts).duration_minutes =
        defaultedDuration req.duration_minutes) ∧
    (extract_meeting_id req.meeting_url = none →
      (start_meeting_recording reg req sid ts).1 =
        .error "Invalid meeting URL: Invalid Google Meet URL format" ∧
      (start_meeting_recording reg req sid ts).2 = reg) ∧
    defaultedDuration none = 30 ∧ defaultedDuration (some 0) = 30 ∧
    (∀ d : Int, d ≠ 0 → defaultedDuration (some d) = d) ∧
    defaultedFolder none = "Meeting Recordings" := by
  refine ⟨?_, ?_, rfl, rfl, ?_, rfl⟩
  · intro mid hmid
    simp [start_meeting_recording, hmid, initialSession]
  · intro hnone
    simp [start_meeting_recording, hnone]
  · intro d hd
    simp [defaultedDuration, hd]

/-- C1 witness: a negative duration (-5) is accepted, not rejected, and the
created entry stores -5. -/
theorem C1_witness :
    extract_meeting_id "https://meet.google.com/abc-defg-hij" = some "abc-defg-hij" ∧
    (start_meeting_recording []
        ⟨"https://meet.google.com/abc-defg-hij", some (-5), none, none⟩ "sidw1" "t0").2 =
      [("sidw1", initialSession ⟨"https://meet.google.com/abc-defg-hij", some (-5), none, none⟩
        "abc-defg-hij" "sidw1" "t0")] ∧
    (initialSession ⟨"https://meet.google.com/abc-defg-hij", some (-5), none, none⟩
        "abc-defg-hij" "sidw1" "t0").duration_minutes = -5 := by
  have h := C1_submit_duration_defaulting []
    ⟨"https://meet.google.com/abc-defg-hij", some (-5), none, none⟩ "sidw1" "t0"
  exact ⟨by rfl, (h.1 "abc-defg-hij" (by rfl)).2.1, by rfl⟩

/-! ## Claim C2: the happy-path scenario with target "xyz-abcd-efg" -/

/-- C2 counterexample: the bare meeting code "xyz-abcd-efg" matches none of
the three patterns (each requires a "meet.google.com/" or "meetingCode="
context), so the submission in the claimed scenario is rejected
synchronously and no job is ever created. -/
theorem C2_counterexample :
    extract_meeting_id "xyz-abcd-efg" = none ∧
    start_meeting_recording [] ⟨"xyz-abcd-efg", some 1, some false, none⟩ "sid1" "t0" =
      (.error "Invalid meeting URL: Invalid Google Meet URL format", []) := by
  constructor <;> rfl

/-- C2 (amended): with the URL target "https://meet.google.com/xyz-abcd-efg"
(duration 1, upload not requested) the submission is accepted, and —
whenever credentials, login, join and capture succeed — the created job
reaches the terminal status "completed" with `recording_file` set and
`drive_link` unset. -/
theorem C2_scenario_url_target (c : Collab) (reg : Registry) (sid ts : String)
    (hcred : credsOk c = true) (hlog : c.loginOk = true) (hjoin : c.joinOk = true)
    (hcap : c.captureFileSize.isSome = true) :
    (start_meeting_recording reg
        ⟨"https://meet.google.com/xyz-abcd-efg", some 1, some false, none⟩ sid ts).1 =
      .ok ⟨sid, "queued", "Recording session started successfully",
        "https://meet.google.com/xyz-abcd-efg", 1⟩ ∧
    ∀ r0, get_session_data
        (start_meeting_recording reg
          ⟨"https://meet.google.com/xyz-abcd-efg", some 1, some false, none⟩ sid ts).2 sid =
        some r0 →
      (runUpdates r0
          (record_meeting_session c sid r0.duration_minutes r0.upload_to_drive
            r0.folder_name)).status = "completed" ∧
      (runUpdates r0
          (record_meeting_session c sid r0.duration_minutes r0.upload_to_drive
            r0.folder_name)).recording_file = some (outputFileName sid) ∧
      (runUpdates r0
          (record_meeting_session c sid r0.duration_minutes r0.upload_to_drive
            r0.folder_name)).drive_link = none := by
  constructor
  · rfl
  · intro r0 hr0
    have hx : extract_meeting_id "https://meet.google.com/xyz-abcd-efg" =
        some "xyz-abcd-efg" := by rfl
    simp [start_meeting_recording, hx, get_session_data, keyLookup, initialSession] at hr0
    subst hr0
    simp [record_meeting_session, hcred, hlog, hjoin, start_recording_result, hcap,
      runUpdates, applyUpdate, applyFieldSet, initialSession, defaultedUpload,
      defaultedDuration, defaultedFolder]

/-- C2 witness: the scenario run end to end with concrete succeeding
collaborators. -/
theorem C2_witness :
    credsOk okCollab = true ∧
    (runUpdates
        (initialSession ⟨"https://meet.google.com/xyz-abcd-efg", some 1, some false, none⟩
          "xyz-abcd-efg" "sidw2" "t0")
        (record_meeting_session okCollab "sidw2" 1 false "Meeting Recordings")).status =
      "completed" ∧
    (runUpdates
        (initialSession ⟨"https://meet.google.com/xyz-abcd-efg", some 1, some false, none⟩
          "xyz-abcd-efg" "sidw2" "t0")
        (record_meeting_session okCollab "sidw2" 1 false "Meeting Recordings")).drive_link =
      none := by
  have h := (C2_scenario_url_target okCollab [] "sidw2" "t0" rfl rfl rfl rfl).2
    (initialSession ⟨"https://meet.google.com/xyz-abcd-efg", some 1, some false, none⟩
      "xyz-abcd-efg" "sidw2" "t0") (by rfl)
  exact ⟨rfl, h.1, h.2.2⟩

/-! ## Claim C3: behavior on authentication failure -/

/-- C3 counterexample: when `google_login` fails the job ends in the
catch-all stage "error", not in a stage named "auth_failed" (the code has
no such stage value). -/
theorem C3_counterexample :
    statusTrace (record_meeting_session authFailCollab "sid1" 30 true "Meeting Recordings") =
      ["starting", "logging_in", "error"] ∧
    "auth_failed" ∉
      statusTrace (record_meeting_session authFailCollab "sid1" 30 true "Meeting Recordings") := by
  constructor
  · rfl
  · decide

/-- C3 (amended): on authentication failure the executor writes the
catch-all stage "error", with the executor's own text "Failed to login to
Google account" (not the collaborator's error text) as the failure
message, terminates immediately (the error update is the last status
written), and the capture collaborator is never invoked. -/
theorem C3_auth_failure_error_stage (c : Collab) (sid : String) (dm : Int) (uf : Bool)
    (fn : String) (r0 : SessionRec) (hcred : credsOk c = true) (hlog : c.loginOk = false) :
    statusTrace (record_meeting_session c sid dm uf fn) = ["starting", "logging_in", "error"] ∧
    (runUpdates r0 (record_meeting_session c sid dm uf fn)).status = "error" ∧
    (runUpdates r0 (record_meeting_session c sid dm uf fn)).error_message =
      some "Failed to login to Google account" ∧
    (record_meeting_session c sid dm uf fn).all (fun e => !isCaptureCall e) = true := by
  simp [record_meeting_session, hcred, hlog, statusTrace, runUpdates, applyUpdate,
    applyFieldSet, isCaptureCall]

/-- C3 witness: concrete run with a failing login collaborator. -/
theorem C3_witness :
    credsOk authFailCollab = true ∧ authFailCollab.loginOk = false ∧
    (runUpdates sampleRec
        (record_meeting_session authFailCollab "sidw3" 30 true "Meeting Recordings")).status =
      "error" ∧
    (record_meeting_session authFailCollab "sidw3" 30 true "Meeting Recordings").all
      (fun e => !isCaptureCall e) = true := by
  have h := C3_auth_failure_error_stage authFailCollab "sidw3" 30 true "Meeting Recordings"
    sampleRec rfl rfl
  exact ⟨rfl, rfl, h.2.1, h.2.2.2⟩

/-! ## Claim C4: the capture transition -/

/-- C4 counterexample: `start_recording` reports success from
`os.path.exists` alone, so a zero-size output artifact is treated as
success: the job transitions to "recording_complete" (captured), whereas
the claim requires a nonzero-size artifact for that transition. -/
theorem C4_counterexample :
    start_recording_result (some 0) = true ∧
    "recording_complete" ∈
      statusTrace (record_meeting_session zeroSizeCollab "sid1" 1 false "f") ∧
    "recording_failed" ∉
      statusTrace (record_meeting_session zeroSizeCollab "sid1" 1 false "f") := by
  refine ⟨rfl, ?_, ?_⟩ <;> decide

/-- C4 (amended): after successful login and join, for the non-negative
durations on which `time.sleep` returns, the executor transitions to
"recording_complete" (setting `recording_file`) exactly when capture
leaves an output file on disk — of any size, zero included — and
transitions to "recording_failed" with reason "Recording failed" when no
output file exists.  For a negative duration (which submission does not
reject), `time.sleep` raises and the run ends in the catch-all "error"
with the `ValueError` text, regardless of any file on disk. -/
theorem C4_capture_existence_transition (c : Collab) (sid : String) (dm : Int) (uf : Bool)
    (fn : String) (hcred : credsOk c = true) (hlog : c.loginOk = true)
    (hjoin : c.joinOk = true) :
    (0 ≤ dm →
      ("recording_complete" ∈ statusTrace (record_meeting_session c sid dm uf fn) ↔
        c.captureFileSize.isSome = true)) ∧
    (0 ≤ dm → c.captureFileSize.isSome = true → ∀ r0,
      (runUpdates r0 (record_meeting_session c sid dm uf fn)).recording_file =
        some (outputFileName sid)) ∧
    (0 ≤ dm → c.captureFileSize = none →
      statusTrace (record_meeting_session c sid dm uf fn) =
        ["starting", "logging_in", "joining_meeting", "recording", "recording_failed"] ∧
      ∀ r0, (runUpdates r0 (record_meeting_session c sid dm uf fn)).status =
          "recording_failed" ∧
        (runUpdates r0 (record_meeting_session c sid dm uf fn)).error_message =
          some "Recording failed") ∧
    (dm < 0 →
      statusTrace (record_meeting_session c sid dm uf fn) =
        ["starting", "logging_in", "joining_meeting", "recording", "error"] ∧
      ∀ r0, (runUpdates r0 (record_meeting_session c sid dm uf fn)).status = "error" ∧
        (runUpdates r0 (record_meeting_session c sid dm uf fn)).error_message =
          some sleepNegativeMsg) := by
  refine ⟨?_, ?_, ?_, ?_⟩
  · intro hdm
    have h60 : ¬ dm * 60 < 0 := by omega
    cases hcap : c.captureFileSize with
    | none =>
      simp [record_meeting_session, hcred, hlog, hjoin, h60, start_recording_result, hcap,
        statusTrace]
    | some n =>
      cases uf with
      | false =>
        simp [record_meeting_session, hcred, hlog, hjoin, h60, start_recording_result, hcap,
          statusTrace]
      | true =>
        cases hup : c.uploadResult with
        | none =>
          simp [record_meeting_session, hcred, hlog, hjoin, h60, start_recording_result,
            hcap, hup, statusTrace]
        | some link =>
          simp [record_meeting_session, hcred, hlog, hjoin, h60, start_recording_result,
            hcap, hup, statusTrace]
  · intro hdm hcap r0
    have h60 : ¬ dm * 60 < 0 := by omega
    cases uf with
    | false =>
      simp [record_meeting_session, hcred, hlog, hjoin, h60, start_recording_result, hcap,
        runUpdates, applyUpdate, applyFieldSet]
    | true =>
      cases hup : c.uploadResult with
      | none =>
        simp [record_meeting_session, hcred, hlog, hjoin, h60, start_recording_result, hcap,
          hup, runUpdates, applyUpdate, applyFieldSet]
      | some link =>
        simp [record_meeting_session, hcred, hlog, hjoin, h60, start_recording_result, hcap,
          hup, runUpdates, applyUpdate, applyFieldSet]
  · intro hdm hcap
    have h60 : ¬ dm * 60 < 0 := by omega
    simp [record_meeting_session, hcred, hlog, hjoin, h60, start_recording_result, hcap,
      statusTrace, runUpdates, applyUpdate, applyFieldSet]
  · intro hdm
    have h60 : dm * 60 < 0 := by omega
    simp [record_meeting_session, hcred, hlog, hjoin, h60, statusTrace, runUpdates,
      applyUpdate, applyFieldSet]

/-- C4 witness: a concrete successful capture at duration 2 reaches
"recording_complete" and sets the artifact path, and the same collaborators
at duration -1 end in "error" via the `time.sleep` `ValueError`. -/
theorem C4_witness :
    "recording_complete" ∈
      statusTrace (record_meeting_session okCollab "sidw4" 2 true "F") ∧
    (runUpdates sampleRec
        (record_meeting_session okCollab "sidw4" 2 true "F")).recording_file =
      some (outputFileName "sidw4") ∧
    (runUpdates sampleRec
        (record_meeting_session okCollab "sidw4" (-1) true "F")).status = "error" := by
  have h := C4_capture_existence_transition okCollab "sidw4" 2 true "F" rfl rfl rfl
  have hn := C4_capture_existence_transition okCollab "sidw4" (-1) true "F" rfl rfl rfl
  exact ⟨(h.1 (by decide)).mpr rfl, h.2.1 (by decide) rfl sampleRec,
    ((hn.2.2.2 (by decide)).2 sampleRec).1⟩

/-! ## Claim C5: the stage state machine and its terminals -/

/-- C5 counterexample: a job whose login fails ends (and stays) in the
final stage "error", which is not in the specification's terminal set
{completed, auth_failed, join_failed, capture_failed, upload_failed} — so
that set is not the set of final stages the code produces. -/
theorem C5_counterexample :
    ("queued" :: statusTrace
        (record_meeting_session authFailCollab "sid5" 30 true "Meeting Recordings")).getLast? =
      some "error" ∧
    "error" ∉ specTerminals := by
  constructor
  · rfl
  · decide

/-- C5 (amended): for every job, the stage sequence written by its executor
(prefixed by the "queued" stage the facade creates it in) drops its final
element to a subsequence of the linear success path
queued → starting → logging_in → joining_meeting → recording →
recording_complete → uploading → completed; the final stage written is one
of the code's terminal set {completed, upload_failed, recording_failed,
error} (not the specification's — auth and join failures share the
catch-all "error"); no terminal stage is ever followed by another update,
and no stage is ever revisited. -/
theorem C5_stage_machine_terminals (c : Collab) (sid : String) (dm : Int) (uf : Bool)
    (fn : String) :
    List.Sublist ("queued" :: statusTrace (record_meeting_session c sid dm uf fn)).dropLast
        codePath ∧
    (∃ t, ("queued" :: statusTrace (record_meeting_session c sid dm uf fn)).getLast? = some t ∧
      t ∈ codeTerminals) ∧
    (∀ s ∈ ("queued" :: statusTrace (record_meeting_session c sid dm uf fn)).dropLast,
      s ∉ codeTerminals) ∧
    ("queued" :: statusTrace (record_meeting_session c sid dm uf fn)).Nodup := by
  have h := statusTrace_cases c sid dm uf fn
  simp only [List.mem_cons, List.not_mem_nil, or_false] at h
  rcases h with h | h | h | h | h | h | h | h <;> rw [h] <;> decide

/-- C5 witness: the full-success run at concrete inputs. -/
theorem C5_witness :
    ∃ t, ("queued" :: statusTrace
        (record_meeting_session okCollab "sidw5" 3 true "F")).getLast? = some t ∧
      t ∈ codeTerminals :=
  (C5_stage_machine_terminals okCollab "sidw5" 3 true "F").2.1

/-! ## Claim C6: upload failure retains the artifact -/

/-- C6: when capture succeeds (a non-negative duration, so `time.sleep`
returns, and an output file on disk) and the upload collaborator fails,
the job ends in "upload_failed" with the failure message, `recording_file`
remains set, the executor never deletes a file, and the artifact is still
on disk after the run. -/
theorem C6_upload_failure_retains_artifact (c : Collab) (sid : String) (dm : Int)
    (fn : String) (r0 : SessionRec) (hdm : 0 ≤ dm) (hcred : credsOk c = true)
    (hlog : c.loginOk = true) (hjoin : c.joinOk = true)
    (hcap : c.captureFileSize.isSome = true) (hup : c.uploadResult = none) :
    (runUpdates r0 (record_meeting_session c sid dm true fn)).status = "upload_failed" ∧
    (runUpdates r0 (record_meeting_session c sid dm true fn)).error_message =
      some "Failed to upload to Google Drive" ∧
    (runUpdates r0 (record_meeting_session c sid dm true fn)).recording_file =
      some (outputFileName sid) ∧
    (record_meeting_session c sid dm true fn).all (fun e => !isRemoveFile e) = true ∧
    outputFileName sid ∈ runFs c [] (record_meeting_session c sid dm true fn) := by
  have h60 : ¬ dm * 60 < 0 := by omega
  simp [record_meeting_session, hcred, hlog, hjoin, h60, start_recording_result, hcap, hup,
    runUpdates, applyUpdate, applyFieldSet, isRemoveFile, runFs]

/-- C6 witness: a concrete run whose upload fails. -/
theorem C6_witness :
    (runUpdates sampleRec
        (record_meeting_session uploadFailCollab "sidw6" 5 true "Meeting Recordings")).status =
      "upload_failed" ∧
    (runUpdates sampleRec
        (record_meeting_session uploadFailCollab "sidw6" 5 true
          "Meeting Recordings")).recording_file = some (outputFileName "sidw6") ∧
    outputFileName "sidw6" ∈
      runFs uploadFailCollab []
        (record_meeting_session uploadFailCollab "sidw6" 5 true "Meeting Recordings") := by
  have h := C6_upload_failure_retains_artifact uploadFailCollab "sidw6" 5
    "Meeting Recordings" sampleRec (by decide) rfl rfl rfl rfl rfl
  exact ⟨h.1, h.2.2.1, h.2.2.2.2⟩

/-! ## Claim C7: delete_session -/

/-- C7: for a present id, `delete_session` succeeds, removes the registry
entry, deletes the artifact file when the record points at an existing
file and `os.remove` succeeds, and still succeeds (error logged, not
propagated) when the job has no artifact, the file is absent, or the
deletion itself fails; for an absent id it returns the not-found error and
changes nothing. -/
theorem C7_delete_session_behavior :
    (∀ (reg : Registry) (fs : List String) (rf : Bool) (sid : String) (s : SessionRec),
      (reg.map Prod.fst).Nodup →
      get_session_data reg sid = some s →
      (delete_session reg fs rf sid).1 = .ok "Session deleted successfully" ∧
      get_session_data (delete_session reg fs rf sid).2.1 sid = none ∧
      (∀ f, s.recording_file = some f → f ≠ "" → f ∈ fs → rf = false →
        f ∉ (delete_session reg fs rf sid).2.2) ∧
      (s.recording_file = none → (delete_session reg fs rf sid).2.2 = fs) ∧
      (rf = true → (delete_session reg fs rf sid).2.2 = fs)) ∧
    (∀ (reg : Registry) (fs : List String) (rf : Bool) (sid : String),
      get_session_data reg sid = none →
      delete_session reg fs rf sid = (.error "Session not found", reg, fs)) := by
  constructor
  · intro reg fs rf sid s hnd hs
    refine ⟨?_, ?_, ?_, ?_, ?_⟩
    · simp [delete_session, hs]
    · simp only [delete_session, hs]
      exact keyLookup_keyErase_self reg sid hnd
    · intro f hf hne hmem hrf
      simp [delete_session, hs, hf, hne, hmem, hrf, List.mem_filter]
    · intro hf
      simp [delete_session, hs, hf]
    · intro hrf
      simp only [delete_session, hs, hrf]
      split
      · split
        · rfl
        · rfl
      · rfl
  · intro reg fs rf sid hs
    simp [delete_session, hs]

/-- C7 witness: deleting a concrete session with an existing artifact
removes both the entry and the file; deleting an absent id is NotFound. -/
theorem C7_witness :
    (delete_session [("s7", rec7)] ["recording_s7.mp3"] false "s7").1 =
      .ok "Session deleted successfully" ∧
    get_session_data (delete_session [("s7", rec7)] ["recording_s7.mp3"] false "s7").2.1
      "s7" = none ∧
    "recording_s7.mp3" ∉
      (delete_session [("s7", rec7)] ["recording_s7.mp3"] false "s7").2.2 ∧
    delete_session [] [] false "ghost" = (.error "Session not found", [], []) := by
  have h := C7_delete_session_behavior
  have h1 := h.1 [("s7", rec7)] ["recording_s7.mp3"] false "s7" rec7 (by decide) (by rfl)
  exact ⟨h1.1, h1.2.1, h1.2.2.1 "recording_s7.mp3" (by rfl) (by decide) (by decide) rfl,
    h.2 [] [] false "ghost" (by rfl)⟩

/-! ## Claim C8: update on an absent id is a silent no-op -/

/-- C8: `update_session_status` on an id absent from the registry leaves
the registry unchanged; in particular the id is still absent afterwards —
a deleted job is never resurrected by a late executor update. -/
theorem C8_update_absent_noop (reg : Registry) (sid status : String)
    (kwargs : List FieldSet) (h : get_session_data reg sid = none) :
    update_session_status reg sid status kwargs = reg ∧
    get_session_data (update_session_status reg sid status kwargs) sid = none := by
  unfold get_session_data at h
  unfold update_session_status
  rw [h]
  exact ⟨rfl, h⟩

/-- C8 witness: a late executor update against a deleted id does nothing. -/
theorem C8_witness :
    update_session_status [("live", rec7)] "deleted" "completed" [] = [("live", rec7)] ∧
    get_session_data
      (update_session_status [("live", rec7)] "deleted" "completed" []) "deleted" = none :=
  C8_update_absent_noop [("live", rec7)] "deleted" "completed" [] (by rfl)

/-! ## Claim C9: get returns a copy that later updates cannot change -/

/-- C9: with the heap explicit, `get_session_data` on a present id returns
a freshly allocated copy of the current record, and any later
`update_session_status` — which writes through the registry's own
reference — leaves the returned copy unchanged; on an absent id it returns
`None`.  (The code's `.copy()` is a shallow copy, but every stored value
is an immutable scalar, so the copy is observationally deep.) -/
theorem C9_get_copy_frame :
    (∀ (h : Heap) (reg : List (String × Nat)) (sid : String) (a : Nat) (r : SessionRec),
      (∀ p ∈ reg, p.2 ≤ heapMax h) →
      keyLookup reg sid = some a →
      heapLookup h a = some r →
      (get_session_data_heap h reg sid).1 = some (freshAddr h) ∧
      heapLookup (get_session_data_heap h reg sid).2 (freshAddr h) = some r ∧
      (∀ (sid' st : String) (kw : List FieldSet),
        heapLookup
            (update_session_status_heap (get_session_data_heap h reg sid).2 reg sid' st kw)
            (freshAddr h) = some r)) ∧
    (∀ (h : Heap) (reg : List (String × Nat)) (sid : String),
      keyLookup reg sid = none → get_session_data_heap h reg sid = (none, h)) := by
  constructor
  · intro h reg sid a r hwf h1 h2
    have hget : get_session_data_heap h reg sid =
        (some (freshAddr h), (freshAddr h, r) :: h) := by
      simp [get_session_data_heap, h1, h2]
    refine ⟨by rw [hget], by rw [hget]; simp [heapLookup], ?_⟩
    intro sid' st kw
    rw [hget]
    simp only [update_session_status_heap]
    cases h3 : keyLookup reg sid' with
    | none => simp [heapLookup]
    | some b =>
      have hb : b ≤ heapMax h := hwf _ (keyLookup_mem reg sid' b h3)
      have hne : freshAddr h ≠ b := by
        simp only [freshAddr]
        omega
      have hlk : heapLookup ((freshAddr h, r) :: h) b = heapLookup h b := by
        simp only [heapLookup]
        rw [if_neg hne]
      dsimp only
      rw [hlk]
      cases h4 : heapLookup h b with
      | none => simp [heapLookup]
      | some r' =>
        dsimp only
        rw [heapLookup_heapSet_ne _ _ _ _ hne]
        simp [heapLookup]
  · intro h reg sid h1
    simp [get_session_data_heap, h1]

/-- C9 witness: a reader's copy (allocated at address 2) survives a
subsequent status update through the registry's reference (address 1). -/
theorem C9_witness :
    (get_session_data_heap [(1, rec7)] [("s9", 1)] "s9").1 = some 2 ∧
    heapLookup
        (update_session_status_heap (get_session_data_heap [(1, rec7)] [("s9", 1)] "s9").2
          [("s9", 1)] "s9" "completed" []) 2 = some rec7 := by
  have h := C9_get_copy_frame.1 [(1, rec7)] [("s9", 1)] "s9" 1 rec7 (by decide) (by rfl)
    (by rfl)
  exact ⟨h.1, h.2.2 "s9" "completed" []⟩

/-! ## Claim C10: permissiveness of the target-validation rule -/

/-- C10 counterexample: extract_meeting_id does not always return the full
character run after "meet.google.com/" via the third pattern: on
"meet.google.com/abc-defg-hijk" the first (strict) pattern matches the
12-character prefix of that run and returns "abc-defg-hij", not the run
"abc-defg-hijk". -/
theorem C10_counterexample :
    extract_meeting_id "meet.google.com/abc-defg-hijk" = some "abc-defg-hij" ∧
    (("meet.google.com/abc-defg-hijk".data).drop meetLit.length).takeWhile isMeetIdChar =
      "abc-defg-hijk".data ∧
    ("abc-defg-hij" : String) ≠ "abc-defg-hijk" := by
  refine ⟨rfl, rfl, ?_⟩
  decide

/-- C10 (amended): the validation rule is indeed highly permissive — every
input containing "meet.google.com/" followed by at least one character
from [a-zA-Z0-9-_] is accepted (some pattern matches, the third as
fallback), so "https://meet.google.com/unsupported" and
"meet.google.com/landing" are valid targets (yielding "unsupported" and
"landing"); the strict xxx-xxxx-xxx shape is not required — though the
value returned is not always the full character run after the prefix,
since an earlier pattern may match elsewhere or match a strict-shaped
prefix of the run. -/
theorem C10_extract_permissive :
    (∀ (s : String) (pre : List Char) (c : Char) (suf : List Char),
      s.data = pre ++ meetLit ++ c :: suf → isMeetIdChar c = true →
      (extract_meeting_id s).isSome = true) ∧
    extract_meeting_id "https://meet.google.com/unsupported" = some "unsupported" ∧
    extract_meeting_id "meet.google.com/landing" = some "landing" := by
  refine ⟨?_, rfl, rfl⟩
  intro s pre c suf h hc
  unfold extract_meeting_id
  cases h1 : reSearch meetLit matchStrictCode s.data with
  | some g => simp
  | none =>
    cases h2 : reSearch codeLit matchStrictCode s.data with
    | some g => simp
    | none =>
      have h3 := reSearch_meet_isSome s.data ⟨pre, c, suf, h, hc⟩
      cases h4 : reSearch meetLit matchIdRun s.data with
      | some g => simp
      | none => rw [h4] at h3; simp at h3

/-- C10 witness: the general permissiveness theorem applied to the URL
"https://meet.google.com/unsupported". -/
theorem C10_witness :
    isMeetIdChar 'u' = true ∧
    (extract_meeting_id "https://meet.google.com/unsupported").isSome = true :=
  ⟨by decide,
    C10_extract_permissive.1 "https://meet.google.com/unsupported" "https://".data 'u'
      "nsupported".data (by decide) (by decide)⟩

end MeetRec
